import Mathlib

/-!
Shallow embedding of the mcp-demo repository: a one-shot CSV→parquet
converter script (generate_parquet.py) and a tool-host entry point
(main.py) that imports tool-provider modules for their registration
side effects and then starts the server's blocking run loop.
-/

set_option autoImplicit false

namespace McpDemo

/-- Errors that the Python runtime can raise in the two scripts. -/
inductive PyError where
  | fileNotFound (path : String)
  | parseError (msg : String)
  | ioError (path : String)
  | importError (modName : String) (msg : String)
  deriving DecidableEq, Repr

/-- A scalar cell of a tabular dataset, as produced by the CSV reader's
type inference: integer, boolean, string, or null/missing. -/
inductive Cell where
  | intVal (i : Int)
  | boolVal (b : Bool)
  | strVal (s : String)
  | nullVal
  deriving DecidableEq, Repr

/-- An in-memory table: ordered column names and rows of cells
(the pandas DataFrame as far as the two scripts observe it). -/
structure DataFrame where
  columns : List String
  rows : List (List Cell)
  deriving DecidableEq, Repr

/-- On-disk file contents: either delimited text or a columnar (parquet)
file, which is self-describing and stores the typed table. -/
inductive FileContent where
  | csv (text : String)
  | parquet (df : DataFrame)
  deriving DecidableEq, Repr

/-- The file system fragment the converter touches, plus which paths are
not writable (to model IOError on an unwritable output path). -/
structure World where
  files : List (String × FileContent)
  unwritable : List String
  deriving DecidableEq, Repr

/-- Look up a path in the file listing. -/
def lookupFile : List (String × FileContent) → String → Option FileContent
  | [], _ => none
  | (q, c) :: rest, p => if q = p then some c else lookupFile rest p

/-- Create or overwrite the file at a path. -/
def updateFile : List (String × FileContent) → String → FileContent → List (String × FileContent)
  | [], p, c => [(p, c)]
  | (q, d) :: rest, p, c =>
    if q = p then (p, c) :: rest else (q, d) :: updateFile rest p c

/-- Split a character list at every occurrence of a separator character
(the lexing underlying both line splitting and comma splitting). -/
def splitOnChar (sep : Char) : List Char → List (List Char)
  | [] => [[]]
  | x :: xs =>
    if x = sep then [] :: splitOnChar sep xs
    else
      match splitOnChar sep xs with
      | [] => [[x]]
      | y :: ys => (x :: y) :: ys

/-- Split a string at every occurrence of a separator character. -/
def splitStr (sep : Char) (s : String) : List String :=
  (splitOnChar sep s.data).map List.asString

/-- The non-blank physical lines of a text file (the CSV reader skips
blank lines by default). -/
def csvLines (s : String) : List String :=
  (splitStr '\n' s).filter (fun l => l ≠ "")

/-- The comma-separated fields of one CSV record. -/
def fields (line : String) : List String :=
  splitStr ',' line

/-- Is the string a decimal integer literal (optional leading minus)? -/
def isIntLit (s : String) : Bool :=
  match s.data with
  | '-' :: t => t ≠ [] && t.all Char.isDigit
  | t => t ≠ [] && t.all Char.isDigit

/-- The natural number denoted by a list of decimal digits. -/
def natOfDigits (l : List Char) : Nat :=
  l.foldl (fun n c => n * 10 + (c.toNat - 48)) 0

/-- The integer denoted by a decimal integer literal. -/
def intOfLit (s : String) : Int :=
  match s.data with
  | '-' :: t => - (natOfDigits t : Int)
  | t => (natOfDigits t : Int)

/-- Is the string one of the two boolean literals the CSV reader
recognizes? -/
def isBoolLit (s : String) : Bool :=
  s = "True" || s = "False"

/-- The dtype inferred for one column of raw CSV fields. -/
inductive ColKind where
  | kbool
  | kint
  | kstr
  deriving DecidableEq, Repr

/-- Infer the dtype of a column from its raw string fields: all boolean
literals → bool, all integer literals → int, otherwise object/string
(a column containing an empty field falls back to object here). -/
def inferKind (col : List String) : ColKind :=
  if col.all (fun s => isBoolLit s) then ColKind.kbool
  else if col.all (fun s => isIntLit s) then ColKind.kint
  else ColKind.kstr

/-- Convert one raw field to a cell under the column's inferred dtype;
an empty field is a missing value. -/
def mkCell (k : ColKind) (s : String) : Cell :=
  match k with
  | ColKind.kbool => Cell.boolVal (s = "True")
  | ColKind.kint => Cell.intVal (intOfLit s)
  | ColKind.kstr => if s = "" then Cell.nullVal else Cell.strVal s

/-- Normalize one record against a header of width m: a record with more
fields than the header is a tokenizing error; a shorter record is padded
with missing values (empty fields). -/
def normalizeRow (m : Nat) (r : List String) : Option (List String) :=
  if r.length ≤ m then some (r ++ List.replicate (m - r.length) "") else none

/-- Tokenize the data records against a header of width m, failing on the
first record with too many fields. -/
def parseRows (m : Nat) : List String → Option (List (List String))
  | [] => some []
  | l :: ls =>
    match normalizeRow m (fields l), parseRows m ls with
    | some r, some rs => some (r :: rs)
    | _, _ => none

/-- The dtype inferred for each of the m columns of a tokenized grid. -/
def colKinds (m : Nat) (grid : List (List String)) : List ColKind :=
  (List.range m).map (fun j => inferKind (grid.map (fun r => r.getD j "")))

/-- Convert a tokenized grid into typed rows. -/
def typedRows (m : Nat) (grid : List (List String)) : List (List Cell) :=
  grid.map (fun r => List.zipWith mkCell (colKinds m grid) r)

/-- pd.read_csv on the raw text: first non-blank line is the header, the
remaining lines are the data records, each column gets an inferred dtype.
An empty file or a record with too many fields is a parse error. -/
def read_csvString (s : String) : Except PyError DataFrame :=
  match csvLines s with
  | [] => Except.error (PyError.parseError "No columns to parse from file")
  | hline :: dataLines =>
    let hdr := fields hline
    match parseRows hdr.length dataLines with
    | none => Except.error (PyError.parseError "Error tokenizing data")
    | some grid => Except.ok ⟨hdr, typedRows hdr.length grid⟩

/-- pd.read_csv on a file's contents: binary (parquet) content is not
valid delimited text. -/
def read_csv (fc : FileContent) : Except PyError DataFrame :=
  match fc with
  | FileContent.csv s => read_csvString s
  | FileContent.parquet _ => Except.error (PyError.parseError "Error tokenizing data")

/-- Reading a parquet file back as a table: the format is self-describing
and returns the stored typed table exactly. -/
def read_parquet (fc : FileContent) : Except PyError DataFrame :=
  match fc with
  | FileContent.parquet df => Except.ok df
  | FileContent.csv _ => Except.error (PyError.parseError "Parquet magic bytes not found")

/-- The hard-coded input path of generate_parquet.py. -/
def inputPath : String := "data\\sample.csv"

/-- The hard-coded output path of generate_parquet.py. -/
def outputPath : String := "data\\sample.parquet"

/-- The single confirmation line printed by generate_parquet.py. -/
def confirmationLine : String := "✅ Parquet file created successfully!"

/-- df.to_parquet(outputPath, index=False): fails if the output path is
not writable, otherwise stores the table (without any index column). -/
def to_parquet (w : World) (df : DataFrame) : Except PyError World :=
  if outputPath ∈ w.unwritable then Except.error (PyError.ioError outputPath)
  else Except.ok { w with files := updateFile w.files outputPath (FileContent.parquet df) }

/-- Decidable equality for results, so concrete runs can be checked by
evaluation. -/
def exceptDecEq {ε α : Type} [DecidableEq ε] [DecidableEq α] : DecidableEq (Except ε α)
  | Except.error a, Except.error b =>
    if h : a = b then isTrue (by rw [h]) else isFalse (by intro hh; cases hh; exact h rfl)
  | Except.error _, Except.ok _ => isFalse (by intro h; cases h)
  | Except.ok _, Except.error _ => isFalse (by intro h; cases h)
  | Except.ok a, Except.ok b =>
    if h : a = b then isTrue (by rw [h]) else isFalse (by intro hh; cases hh; exact h rfl)

instance {ε α : Type} [DecidableEq ε] [DecidableEq α] : DecidableEq (Except ε α) :=
  exceptDecEq

/-- Result of one run of the converter script: the file system afterwards,
the lines written to standard output, and success or the propagated error. -/
structure ConvResult where
  world : World
  stdout : List String
  outcome : Except PyError Unit
  deriving DecidableEq, Repr

/-- generate_parquet.py: read the CSV at the fixed input path, write it as
parquet at the fixed output path with index=False, print one confirmation
line. Any error propagates; nothing is printed or written on failure. -/
def convert (w : World) : ConvResult :=
  match lookupFile w.files inputPath with
  | none => ⟨w, [], Except.error (PyError.fileNotFound inputPath)⟩
  | some fc =>
    match read_csv fc with
    | Except.error e => ⟨w, [], Except.error e⟩
    | Except.ok df =>
      match to_parquet w df with
      | Except.error e => ⟨w, [], Except.error e⟩
      | Except.ok w2 => ⟨w2, [confirmationLine], Except.ok ()⟩

/-! ## Tool Host entry point (main.py)

main.py obtains the shared server object from the server module, imports
tools.csv_tools and tools.parquet_tools so their decorators register tools
with the server, and — only when run as the main program — calls the
server's blocking run loop. The tool-provider modules and the server
module are external to the visible source; each tool module is modelled
as a black box that either registers a list of tool names or raises
an import-time error. -/

/-- One observable step of the tool-host startup. -/
inductive Event where
  | getServer
  | importModule (modName : String)
  | registerTool (toolName : String)
  | runServer
  deriving DecidableEq, Repr

/-- A tool-provider module as main.py observes it: importing it either
registers some named callables with the server (in order) or raises. -/
def ToolModule : Type := Except PyError (List String)

/-- Result of loading main.py: the trace of startup events in order, the
server's tool registry afterwards, what the entry point itself wrote to
the standard streams, and success or the propagated error. -/
structure MainResult where
  events : List Event
  registry : List String
  stdout : List String
  stderr : List String
  outcome : Except PyError Unit
  deriving DecidableEq, Repr

/-- main.py: obtain the server, import tools.csv_tools, import
tools.parquet_tools (each import registering that module's tools), and
call mcp.run() only under the main-program guard. An import error stops
execution there and propagates; the entry point never prints. -/
def runMain (isMainProgram : Bool) (csvTools parquetTools : ToolModule) : MainResult :=
  let ev0 := [Event.getServer, Event.importModule "tools.csv_tools"]
  match csvTools with
  | Except.error e => ⟨ev0, [], [], [], Except.error e⟩
  | Except.ok r1 =>
    let ev1 := ev0 ++ r1.map Event.registerTool ++ [Event.importModule "tools.parquet_tools"]
    match parquetTools with
    | Except.error e => ⟨ev1, r1, [], [], Except.error e⟩
    | Except.ok r2 =>
      let ev2 := ev1 ++ r2.map Event.registerTool
      if isMainProgram then ⟨ev2 ++ [Event.runServer], r1 ++ r2, [], [], Except.ok ()⟩
      else ⟨ev2, r1 ++ r2, [], [], Except.ok ()⟩

/-! ## Helper lemmas -/

theorem lookupFile_updateFile_self (fs : List (String × FileContent)) (p : String)
    (c : FileContent) : lookupFile (updateFile fs p c) p = some c := by
  induction fs with
  | nil => simp [updateFile, lookupFile]
  | cons hd tl ih =>
    obtain ⟨q, d⟩ := hd
    by_cases h : q = p
    · simp [updateFile, lookupFile, h]
    · simp [updateFile, lookupFile, h, ih]

theorem lookupFile_updateFile_ne (fs : List (String × FileContent)) (p q : String)
    (c : FileContent) (h : q ≠ p) :
    lookupFile (updateFile fs p c) q = lookupFile fs q := by
  induction fs with
  | nil =>
    simp only [updateFile, lookupFile]
    rw [if_neg (Ne.symm h)]
  | cons hd tl ih =>
    obtain ⟨r, d⟩ := hd
    by_cases hr : r = p
    · subst hr
      simp only [updateFile, lookupFile, if_pos rfl]
      rw [if_neg (Ne.symm h), if_neg (Ne.symm h)]
    · simp only [updateFile, lookupFile, if_neg hr]
      by_cases hq : r = q <;> simp [lookupFile, hq, ih]

theorem normalizeRow_length (m : Nat) (r out : List String)
    (h : normalizeRow m r = some out) : out.length = m := by
  unfold normalizeRow at h
  split at h
  · cases h
    simp
    omega
  · cases h

theorem parseRows_length (m : Nat) (ls : List String) (rs : List (List String))
    (h : parseRows m ls = some rs) : rs.length = ls.length := by
  induction ls generalizing rs with
  | nil =>
    unfold parseRows at h
    cases h
    rfl
  | cons l tl ih =>
    unfold parseRows at h
    cases h1 : normalizeRow m (fields l) with
    | none => rw [h1] at h; cases h
    | some r =>
      cases h2 : parseRows m tl with
      | none => rw [h1, h2] at h; cases h
      | some tl2 =>
        rw [h1, h2] at h
        cases h
        simp [ih tl2 h2]

theorem parseRows_row_length (m : Nat) (ls : List String) (rs : List (List String))
    (h : parseRows m ls = some rs) : ∀ r ∈ rs, r.length = m := by
  induction ls generalizing rs with
  | nil =>
    unfold parseRows at h
    cases h
    intro r hr
    cases hr
  | cons l tl ih =>
    unfold parseRows at h
    cases h1 : normalizeRow m (fields l) with
    | none => rw [h1] at h; cases h
    | some r0 =>
      cases h2 : parseRows m tl with
      | none => rw [h1, h2] at h; cases h
      | some tl2 =>
        rw [h1, h2] at h
        cases h
        intro r hr
        cases hr with
        | head => exact normalizeRow_length m (fields l) r0 h1
        | tail _ hmem => exact ih tl2 h2 r hmem

theorem inputPath_ne_outputPath : inputPath ≠ outputPath := by decide

/-- A successful run of the converter, characterized: input present and
parseable, output writable. -/
theorem convert_success_eq (w : World) (s : String) (df : DataFrame)
    (hin : lookupFile w.files inputPath = some (FileContent.csv s))
    (hparse : read_csvString s = Except.ok df)
    (hw : outputPath ∉ w.unwritable) :
    convert w = ⟨{ w with files := updateFile w.files outputPath (FileContent.parquet df) },
      [confirmationLine], Except.ok ()⟩ := by
  have h3 : to_parquet w df =
      Except.ok { w with files := updateFile w.files outputPath (FileContent.parquet df) } := by
    unfold to_parquet
    rw [if_neg hw]
  simp [convert, hin, read_csv, hparse, h3]

/-- The converter either leaves the world unchanged (on any failure) or
changes exactly the fixed output path to hold the parsed table. -/
theorem convert_world_cases (w : World) :
    ((convert w).world = w ∧ (convert w).outcome ≠ Except.ok ()) ∨
    ∃ df, (convert w).world =
        { w with files := updateFile w.files outputPath (FileContent.parquet df) } ∧
      (convert w).outcome = Except.ok () := by
  cases h1 : lookupFile w.files inputPath with
  | none => simp [convert, h1]
  | some fc =>
    cases h2 : read_csv fc with
    | error e => simp [convert, h1, h2]
    | ok df =>
      cases h3 : to_parquet w df with
      | error e => simp [convert, h1, h2, h3]
      | ok w2 =>
        have hw2 : w2 = { w with files := updateFile w.files outputPath (FileContent.parquet df) } := by
          unfold to_parquet at h3
          split at h3
          · cases h3
          · cases h3
            rfl
        right
        exact ⟨df, by simp [convert, h1, h2, h3, hw2], by simp [convert, h1, h2, h3]⟩

/-! ## Claim theorems -/

/-- C2: if the input path does not exist, the converter fails with a
FileNotFound error before any write: the file system is unchanged (in
particular the output path keeps its prior state) and nothing is printed. -/
theorem claim_missing_input_no_write (w : World)
    (h : lookupFile w.files inputPath = none) :
    (convert w).outcome = Except.error (PyError.fileNotFound inputPath) ∧
    (convert w).world = w ∧
    (convert w).stdout = [] ∧
    lookupFile (convert w).world.files outputPath = lookupFile w.files outputPath := by
  simp [convert, h]

theorem claim_missing_input_no_write_witness :
    (convert ⟨[], []⟩).outcome = Except.error (PyError.fileNotFound inputPath) ∧
    (convert ⟨[], []⟩).world = (⟨[], []⟩ : World) :=
  ⟨(claim_missing_input_no_write ⟨[], []⟩ (by decide)).1,
   (claim_missing_input_no_write ⟨[], []⟩ (by decide)).2.1⟩

/-- C3: every error raised in the converter (missing input, unparseable
input, unwritable output) and in the tool host (a tool module raising
on load) propagates unchanged to the top of the call stack: the run's
outcome is exactly the raised error. -/
theorem claim_errors_propagate_unchanged :
    (∀ w, lookupFile w.files inputPath = none →
      (convert w).outcome = Except.error (PyError.fileNotFound inputPath)) ∧
    (∀ w fc e, lookupFile w.files inputPath = some fc →
      read_csv fc = Except.error e →
      (convert w).outcome = Except.error e) ∧
    (∀ w fc df, lookupFile w.files inputPath = some fc →
      read_csv fc = Except.ok df → outputPath ∈ w.unwritable →
      (convert w).outcome = Except.error (PyError.ioError outputPath)) ∧
    (∀ b e m2, (runMain b (Except.error e) m2).outcome = Except.error e) ∧
    (∀ b r1 e, (runMain b (Except.ok r1) (Except.error e)).outcome = Except.error e) := by
  refine ⟨?_, ?_, ?_, ?_, ?_⟩
  · intro w h
    simp [convert, h]
  · intro w fc e h1 h2
    simp [convert, h1, h2]
  · intro w fc df h1 h2 h3
    have h4 : to_parquet w df = Except.error (PyError.ioError outputPath) := by
      unfold to_parquet
      rw [if_pos h3]
    simp [convert, h1, h2, h4]
  · intro b e m2
    simp [runMain]
  · intro b r1 e
    simp [runMain]

theorem claim_errors_propagate_unchanged_witness :
    (convert ⟨[], []⟩).outcome = Except.error (PyError.fileNotFound inputPath) ∧
    (convert ⟨[(inputPath, FileContent.csv "")], []⟩).outcome =
      Except.error (PyError.parseError "No columns to parse from file") ∧
    (convert ⟨[(inputPath, FileContent.csv "a\n1")], [outputPath]⟩).outcome =
      Except.error (PyError.ioError outputPath) ∧
    (runMain true (Except.error (PyError.importError "tools.parquet_tools" "boom"))
      (Except.ok [])).outcome =
      Except.error (PyError.importError "tools.parquet_tools" "boom") := by
  refine ⟨claim_errors_propagate_unchanged.1 ⟨[], []⟩ (by decide), ?_, ?_,
    claim_errors_propagate_unchanged.2.2.2.1 true _ (Except.ok [])⟩
  · exact claim_errors_propagate_unchanged.2.1 ⟨[(inputPath, FileContent.csv "")], []⟩
      (FileContent.csv "") _ (by decide) (by decide)
  · exact claim_errors_propagate_unchanged.2.2.1 ⟨[(inputPath, FileContent.csv "a\n1")], [outputPath]⟩
      (FileContent.csv "a\n1") ⟨["a"], [[Cell.intVal 1]]⟩ (by decide) (by decide) (by decide)

/-- C4: on success the converter prints exactly the one confirmation line
and its only file-system effect is writing the fixed output path (every
other path is unchanged, and the writability state is untouched); on any
failure it prints nothing. -/
theorem claim_converter_stdout_and_side_effects (w : World) :
    ((convert w).outcome = Except.ok () →
      (convert w).stdout = [confirmationLine] ∧
      (∃ df, lookupFile (convert w).world.files outputPath = some (FileContent.parquet df)) ∧
      (∀ p, p ≠ outputPath → lookupFile (convert w).world.files p = lookupFile w.files p) ∧
      (convert w).world.unwritable = w.unwritable) ∧
    (∀ e, (convert w).outcome = Except.error e → (convert w).stdout = []) := by
  constructor
  · intro hok
    cases h1 : lookupFile w.files inputPath with
    | none => simp [convert, h1] at hok
    | some fc =>
      cases h2 : read_csv fc with
      | error e => simp [convert, h1, h2] at hok
      | ok df =>
        cases h3 : to_parquet w df with
        | error e => simp [convert, h1, h2, h3] at hok
        | ok w2 =>
          have hw2 : w2 = { w with files := updateFile w.files outputPath (FileContent.parquet df) } := by
            unfold to_parquet at h3
            split at h3
            · cases h3
            · cases h3
              rfl
          refine ⟨by simp [convert, h1, h2, h3], ⟨df, ?_⟩, ?_, ?_⟩
          · simp [convert, h1, h2, h3, hw2, lookupFile_updateFile_self]
          · intro p hp
            simp [convert, h1, h2, h3, hw2, lookupFile_updateFile_ne _ _ _ _ hp]
          · simp [convert, h1, h2, h3, hw2]
  · intro e he
    cases h1 : lookupFile w.files inputPath with
    | none => simp [convert, h1]
    | some fc =>
      cases h2 : read_csv fc with
      | error e2 => simp [convert, h1, h2]
      | ok df =>
        cases h3 : to_parquet w df with
        | error e2 => simp [convert, h1, h2, h3]
        | ok w2 => simp [convert, h1, h2, h3] at he

theorem claim_converter_stdout_and_side_effects_witness :
    (convert ⟨[(inputPath, FileContent.csv "a,b\n1,2")], []⟩).stdout = [confirmationLine] ∧
    (convert ⟨[], []⟩).stdout = [] :=
  ⟨((claim_converter_stdout_and_side_effects ⟨[(inputPath, FileContent.csv "a,b\n1,2")], []⟩).1
      (by decide)).1,
   (claim_converter_stdout_and_side_effects ⟨[], []⟩).2
     (PyError.fileNotFound inputPath) (by decide)⟩

/-- C10: the converter never writes or deletes the input file — its
contents are the same before and after the run, on success and on failure
alike — and no path other than the fixed output path is ever changed. -/
theorem claim_converter_frame (w : World) :
    lookupFile (convert w).world.files inputPath = lookupFile w.files inputPath ∧
    (∀ p, p ≠ outputPath → lookupFile (convert w).world.files p = lookupFile w.files p) := by
  rcases convert_world_cases w with ⟨heq, _⟩ | ⟨df, heq, _⟩
  · rw [heq]
    exact ⟨rfl, fun p _ => rfl⟩
  · rw [heq]
    exact ⟨lookupFile_updateFile_ne _ _ _ _ inputPath_ne_outputPath,
      fun p hp => lookupFile_updateFile_ne _ _ _ _ hp⟩

theorem claim_converter_frame_witness :
    lookupFile (convert ⟨[(inputPath, FileContent.csv "a\n1")], []⟩).world.files inputPath =
      some (FileContent.csv "a\n1") := by
  rw [(claim_converter_frame ⟨[(inputPath, FileContent.csv "a\n1")], []⟩).1]
  decide

/-- C1: converting a well-formed CSV (header line plus tokenizable data
records, output writable) succeeds, and reading the produced columnar file
back yields a table with exactly the CSV's column names in order, one row
per data record, every row as wide as the header, each cell the CSV field
under the reader's type-inference rules, and no column (such as index or
Unnamed: 0) that was not in the CSV header. -/
theorem claim_converter_roundtrip (w : World) (s hline : String)
    (ds : List String) (grid : List (List String))
    (hin : lookupFile w.files inputPath = some (FileContent.csv s))
    (hlines : csvLines s = hline :: ds)
    (hrows : parseRows (fields hline).length ds = some grid)
    (hw : outputPath ∉ w.unwritable) :
    ∃ df,
      (convert w).outcome = Except.ok () ∧
      lookupFile (convert w).world.files outputPath = some (FileContent.parquet df) ∧
      read_parquet (FileContent.parquet df) = Except.ok df ∧
      df.columns = fields hline ∧
      df.rows.length = ds.length ∧
      (∀ r ∈ df.rows, r.length = (fields hline).length) ∧
      df.rows = typedRows (fields hline).length grid ∧
      (∀ nm, nm ∉ fields hline → nm ∉ df.columns) := by
  refine ⟨⟨fields hline, typedRows (fields hline).length grid⟩, ?_⟩
  have hparse : read_csvString s =
      Except.ok ⟨fields hline, typedRows (fields hline).length grid⟩ := by
    unfold read_csvString
    rw [hlines]
    simp [hrows]
  have hc := convert_success_eq w s _ hin hparse hw
  rw [hc]
  refine ⟨rfl, lookupFile_updateFile_self _ _ _, rfl, rfl, ?_, ?_, rfl, ?_⟩
  · simp [typedRows, parseRows_length _ _ _ hrows]
  · intro r hr
    simp only [typedRows, List.mem_map] at hr
    obtain ⟨r0, hr0, rfl⟩ := hr
    rw [List.length_zipWith]
    have hr0len : r0.length = (fields hline).length :=
      parseRows_row_length _ _ _ hrows r0 hr0
    simp [colKinds, hr0len]
  · intro nm hnm hmem
    exact hnm hmem

theorem claim_converter_roundtrip_witness :
    (convert ⟨[(inputPath, FileContent.csv "a,b,c\n1,2,3\n4,5,6")], []⟩).outcome =
      Except.ok () := by
  obtain ⟨df, h1, -⟩ :=
    claim_converter_roundtrip ⟨[(inputPath, FileContent.csv "a,b,c\n1,2,3\n4,5,6")], []⟩
      "a,b,c\n1,2,3\n4,5,6" "a,b,c" ["1,2,3", "4,5,6"] [["1", "2", "3"], ["4", "5", "6"]]
      (by decide) (by decide) (by decide) (by decide)
  exact h1

/-- C8: the converter is idempotent — with the same input CSV in place,
a second run also succeeds and the output file read back after two runs
is identical to the output after one run (both hold the parsed table). -/
theorem claim_converter_idempotent (w : World) (s : String) (df : DataFrame)
    (hin : lookupFile w.files inputPath = some (FileContent.csv s))
    (hparse : read_csvString s = Except.ok df)
    (hw : outputPath ∉ w.unwritable) :
    (convert w).outcome = Except.ok () ∧
    (convert (convert w).world).outcome = Except.ok () ∧
    lookupFile (convert (convert w).world).world.files outputPath =
      lookupFile (convert w).world.files outputPath ∧
    lookupFile (convert w).world.files outputPath = some (FileContent.parquet df) := by
  have hc1 := convert_success_eq w s df hin hparse hw
  have hin1 : lookupFile (convert w).world.files inputPath = some (FileContent.csv s) := by
    rw [hc1]
    rw [lookupFile_updateFile_ne _ _ _ _ inputPath_ne_outputPath]
    exact hin
  have hw1 : outputPath ∉ (convert w).world.unwritable := by
    rw [hc1]
    exact hw
  have hc2 := convert_success_eq (convert w).world s df hin1 hparse hw1
  refine ⟨by rw [hc1], by rw [hc2], ?_, ?_⟩
  · rw [hc2, hc1]
    simp [lookupFile_updateFile_self]
  · rw [hc1]
    exact lookupFile_updateFile_self _ _ _

theorem claim_converter_idempotent_witness :
    (convert ⟨[(inputPath, FileContent.csv "a\n7")], []⟩).outcome = Except.ok () ∧
    (convert (convert ⟨[(inputPath, FileContent.csv "a\n7")], []⟩).world).outcome =
      Except.ok () ∧
    lookupFile (convert (convert ⟨[(inputPath, FileContent.csv "a\n7")], []⟩).world).world.files
        outputPath =
      lookupFile (convert ⟨[(inputPath, FileContent.csv "a\n7")], []⟩).world.files outputPath := by
  have h := claim_converter_idempotent ⟨[(inputPath, FileContent.csv "a\n7")], []⟩ "a\n7"
    ⟨["a"], [[Cell.intVal 7]]⟩ (by decide) (by decide) (by decide)
  exact ⟨h.1, h.2.1, h.2.2.1⟩

/-- C5: a tool-host startup run as the main program proceeds in strict
order — obtain the server, load tools.csv_tools (registering its tools),
then tools.parquet_tools (registering its tools), then call the blocking
run — so run is the last event, it occurs after every import, and it is
reached even when both modules register zero tools. -/
theorem claim_toolhost_startup_order (r1 r2 : List String) :
    (runMain true (Except.ok r1) (Except.ok r2)).events =
      ([Event.getServer, Event.importModule "tools.csv_tools"] ++
        r1.map Event.registerTool ++ [Event.importModule "tools.parquet_tools"] ++
        r2.map Event.registerTool) ++ [Event.runServer] ∧
    Event.runServer ∉
      ([Event.getServer, Event.importModule "tools.csv_tools"] ++
        r1.map Event.registerTool ++ [Event.importModule "tools.parquet_tools"] ++
        r2.map Event.registerTool) ∧
    (runMain true (Except.ok r1) (Except.ok r2)).outcome = Except.ok () ∧
    (runMain true (Except.ok []) (Except.ok [])).events =
      [Event.getServer, Event.importModule "tools.csv_tools",
       Event.importModule "tools.parquet_tools", Event.runServer] := by
  refine ⟨by simp [runMain], ?_, by simp [runMain], by simp [runMain]⟩
  simp [List.mem_append, List.mem_map]

theorem claim_toolhost_startup_order_witness :
    (runMain true (Except.ok ["t1"]) (Except.ok ["t2"])).events =
      ([Event.getServer, Event.importModule "tools.csv_tools"] ++
        (["t1"].map Event.registerTool) ++ [Event.importModule "tools.parquet_tools"] ++
        (["t2"].map Event.registerTool)) ++ [Event.runServer] :=
  (claim_toolhost_startup_order ["t1"] ["t2"]).1

/-- C6: when a tool-provider module raises on import, the tool host fails
to start with exactly that import error and the server's blocking run is
never reached. -/
theorem claim_toolhost_import_failure (b : Bool) (m1 m2 : ToolModule) (e : PyError)
    (h : m1 = Except.error e ∨ (∃ r1, m1 = Except.ok r1 ∧ m2 = Except.error e)) :
    (runMain b m1 m2).outcome = Except.error e ∧
    Event.runServer ∉ (runMain b m1 m2).events := by
  rcases h with rfl | ⟨r1, rfl, rfl⟩
  · exact ⟨by simp [runMain], by simp [runMain]⟩
  · exact ⟨by simp [runMain], by simp [runMain, List.mem_append, List.mem_map]⟩

theorem claim_toolhost_import_failure_witness :
    (runMain true (Except.error (PyError.importError "tools.csv_tools" "boom"))
      (Except.ok [])).outcome =
      Except.error (PyError.importError "tools.csv_tools" "boom") ∧
    Event.runServer ∉
      (runMain true (Except.error (PyError.importError "tools.csv_tools" "boom"))
        (Except.ok [])).events :=
  claim_toolhost_import_failure true _ _ _ (Or.inl rfl)

/-- C7: the tool-host entry point itself writes nothing to standard output
or standard error in any run — run as main or imported, imports succeeding
or failing. -/
theorem claim_toolhost_silent_streams (b : Bool) (m1 m2 : ToolModule) :
    (runMain b m1 m2).stdout = [] ∧ (runMain b m1 m2).stderr = [] := by
  cases m1 <;> cases m2 <;> cases b <;> simp [runMain]

theorem claim_toolhost_silent_streams_witness :
    (runMain true (Except.ok []) (Except.ok [])).stdout = [] ∧
    (runMain true (Except.ok []) (Except.ok [])).stderr = [] :=
  claim_toolhost_silent_streams true (Except.ok []) (Except.ok [])

/-- C9: loading main.py as an import performs the server acquisition and
all registration side effects but never reaches the blocking run; run is
invoked exactly when the module is executed as the main program. -/
theorem claim_main_guard (m1 m2 : ToolModule) :
    Event.runServer ∉ (runMain false m1 m2).events ∧
    (∀ r1 r2, m1 = Except.ok r1 → m2 = Except.ok r2 →
      (runMain false m1 m2).registry = r1 ++ r2 ∧
      (runMain false m1 m2).events =
        [Event.getServer, Event.importModule "tools.csv_tools"] ++
          r1.map Event.registerTool ++ [Event.importModule "tools.parquet_tools"] ++
          r2.map Event.registerTool ∧
      Event.runServer ∈ (runMain true m1 m2).events) := by
  constructor
  · cases m1 <;> cases m2 <;> simp [runMain, List.mem_append, List.mem_map]
  · intro r1 r2 h1 h2
    subst h1
    subst h2
    refine ⟨by simp [runMain], by simp [runMain], by simp [runMain]⟩

theorem claim_main_guard_witness :
    Event.runServer ∉ (runMain false (Except.ok ["read_csv_tool"]) (Except.ok [])).events ∧
    (runMain false (Except.ok ["read_csv_tool"]) (Except.ok [])).registry = ["read_csv_tool"] ∧
    Event.runServer ∈ (runMain true (Except.ok ["read_csv_tool"]) (Except.ok [])).events := by
  have h := claim_main_guard (Except.ok ["read_csv_tool"]) (Except.ok [])
  exact ⟨h.1, by simpa using (h.2 ["read_csv_tool"] [] rfl rfl).1,
    (h.2 ["read_csv_tool"] [] rfl rfl).2.2⟩

end McpDemo
